import Mathlib

/-!
Shallow embedding of `src/lib.rs` of the max6675 driver (module `max6675`).

Machine integers are modelled as `Nat` with explicit `% 2^w` where the
width matters; the Rust bit operations are written in div/mod form
(`x >> k` is `x / 2^k`, `(x & 2^k) >> k` is `(x / 2^k) % 2`).
The Rust `f32` result `reading.temp as f32 * 0.25` is modelled in `ℚ`:
`temp` is at most `0xFFFF >> 3 = 8191`, hence both the cast to `f32` and
the multiplication by `0.25` (a power of two) are exact, so `ℚ` is a
faithful model of the returned value.

The SPI transport and the chip-select pin are the driver's only
collaborators.  A single call to `get_temperature` performs exactly one
two-byte transfer, so a transport behaviour for one call is either the
pair of delivered bytes or a failure (`TransferResult`).  The chip-select
pin is modelled by the trace of `set_low` / `set_high` events the driver
emits during the call.
-/

namespace Max6675

/-- MAX6675-specific errors (`enum Error` in src/lib.rs, lines 16-19).
The Rust enum has exactly these two variants; in particular there is no
separate protocol-mismatch variant. -/
inductive Error where
  | BusError
  | ThermocoupleDisconnected
deriving DecidableEq, Repr

/-- `struct Reading` (src/lib.rs lines 22-26): temperature plus diagnostic
bits. `temp` models the `u16` field, `device_id` the `u8` field. -/
structure Reading where
  temp : Nat
  is_open : Bool
  device_id : Nat
deriving DecidableEq, Repr

/-- Outcome of the single two-byte SPI transfer performed by one call:
either the two received bytes (`buffer[0]`, `buffer[1]`) or a transport
failure (the `E` error of `SPI: Transfer<u8, Error = E>`, which the
driver treats as opaque). -/
inductive TransferResult where
  | ok (b0 b1 : Nat)
  | err
deriving DecidableEq, Repr

/-- One drive of the chip-select line (`cs.set_low()` / `cs.set_high()`). -/
inductive CSEvent where
  | setLow
  | setHigh
deriving DecidableEq, Repr

/-- `let raw_reading: u16 = (buffer[0] as u16) << 8 | buffer[1] as u16;`
(src/lib.rs line 63).  The bytes are `u8`, hence the `% 256`; the shift
puts the first byte in the high half, and `|` of the disjoint halves is
addition. -/
def rawFrame (b0 b1 : Nat) : Nat :=
  b0 % 256 * 256 + b1 % 256

/-- `fn read_spi` (src/lib.rs lines 55-70), as a function of the transfer
outcome.  It returns the trace of chip-select events together with the
result.  Note the source order: `cs.set_low()` runs first, then
`self.spi.transfer(&mut buffer)?` — on a transfer error the `?` returns
early, so `cs.set_high()` is never reached and the trace is just
`[setLow]`.  Field extraction on success (lines 66-68):
`temp = raw_reading >> 3`, `is_open = ((raw_reading & 0b100) >> 2) == 1`,
`device_id = ((raw_reading & 0b10) >> 1) as u8`. -/
def read_spi (t : TransferResult) : List CSEvent × Except Unit Reading :=
  match t with
  | TransferResult.err => ([CSEvent.setLow], Except.error ())
  | TransferResult.ok b0 b1 =>
      ([CSEvent.setLow, CSEvent.setHigh],
        Except.ok
          { temp := rawFrame b0 b1 / 2 ^ 3
            is_open := decide ((rawFrame b0 b1 / 2 ^ 2) % 2 = 1)
            device_id := (rawFrame b0 b1 / 2 ^ 1) % 2 })

/-- `pub fn get_temperature` (src/lib.rs lines 38-52), as a function of
the transfer outcome of its single `read_spi` call.  `reading.temp as
f32 * 0.25` is modelled exactly in `ℚ` (see the file header). -/
def get_temperature (t : TransferResult) : Except Error ℚ :=
  match (read_spi t).2 with
  | Except.ok reading =>
      if reading.is_open then Except.error Error.ThermocoupleDisconnected
      else if reading.device_id ≠ 0 then Except.error Error.BusError
      else Except.ok ((reading.temp : ℚ) * (1 / 4))
  | Except.error _ => Except.error Error.BusError

/-- The chip-select trace of one `get_temperature` call: exactly the
trace of its single `read_spi` call. -/
def csTrace (t : TransferResult) : List CSEvent :=
  (read_spi t).1

instance {ε α : Type} [DecidableEq ε] [DecidableEq α] :
    DecidableEq (Except ε α) := fun a b =>
  match a, b with
  | Except.ok x, Except.ok y =>
      if h : x = y then isTrue (h ▸ rfl)
      else isFalse (fun hh => h (Except.ok.inj hh))
  | Except.error e, Except.error f =>
      if h : e = f then isTrue (h ▸ rfl)
      else isFalse (fun hh => h (Except.error.inj hh))
  | Except.ok _, Except.error _ => isFalse (fun hh => Except.noConfusion hh)
  | Except.error _, Except.ok _ => isFalse (fun hh => Except.noConfusion hh)

/-- Bit `i` of a `Nat` (value 0 or 1), used to state the spec's
bit-layout claims. -/
def bit (n i : Nat) : Nat :=
  (n / 2 ^ i) % 2

/-- Bits 14..3 of a frame: the 12-bit field the spec calls
`temperature_ticks` (discarding the low 3 bits and bit 15). -/
def ticksField (n : Nat) : Nat :=
  (n / 2 ^ 3) % 2 ^ 12

/-- Whether a `get_temperature` result is a success. -/
def isOk (r : Except Error ℚ) : Bool :=
  match r with
  | Except.ok _ => true
  | Except.error _ => false

/-- A stateful transport collaborator: `step` performs one two-byte
exchange, yielding the outcome and the successor transport state.  Used
to state that the driver itself carries no state across calls. -/
structure Transport (σ : Type) where
  step : σ → TransferResult × σ

/-- One `get_temperature` call against a stateful transport: the
transport makes one exchange, the driver decodes its outcome. -/
def runGetTemperature {σ : Type} (T : Transport σ) (s : σ) :
    Except Error ℚ × σ :=
  (get_temperature (T.step s).1, (T.step s).2)

/-- A concrete transport whose state is a call counter and which fails
every exchange. -/
def tickTransport : Transport Nat :=
  ⟨fun n => (TransferResult.err, n + 1)⟩

theorem rawFrame_lt (b0 b1 : Nat) : rawFrame b0 b1 < 65536 := by
  unfold rawFrame
  omega

theorem get_temperature_flags_clear (b0 b1 : Nat)
    (h2 : bit (rawFrame b0 b1) 2 = 0) (h1 : bit (rawFrame b0 b1) 1 = 0) :
    get_temperature (TransferResult.ok b0 b1) =
      Except.ok (((rawFrame b0 b1 / 2 ^ 3 : ℕ) : ℚ) * (1 / 4)) := by
  simp [bit] at h1 h2
  simp [get_temperature, read_spi, h1, h2]

/-- Claim C1 (amended): a raw frame whose temperature bits (14..3) equal
`t`, whose open-circuit bit (2) and device-id bit (1) are clear, and —
the amendment — whose dummy bit 15 is also clear, decodes to success
with value `t * 0.25`. -/
theorem get_temperature_success_value (t b0 b1 : Nat)
    (h15 : bit (rawFrame b0 b1) 15 = 0)
    (ht : ticksField (rawFrame b0 b1) = t)
    (h2 : bit (rawFrame b0 b1) 2 = 0) (h1 : bit (rawFrame b0 b1) 1 = 0) :
    get_temperature (TransferResult.ok b0 b1) =
      Except.ok ((t : ℚ) * (1 / 4)) := by
  have hd : rawFrame b0 b1 / 2 ^ 3 = t := by
    unfold ticksField bit at *
    unfold rawFrame at *
    omega
  rw [get_temperature_flags_clear b0 b1 h2 h1, hd]

/-- Witness for C1: bytes `[0x7F, 0xF8]` satisfy all the hypotheses with
`t = 4095` and decode to `4095 * 0.25 = 1023.75`. -/
theorem get_temperature_success_value_witness :
    bit (rawFrame 127 248) 15 = 0 ∧ ticksField (rawFrame 127 248) = 4095 ∧
    bit (rawFrame 127 248) 2 = 0 ∧ bit (rawFrame 127 248) 1 = 0 ∧
    get_temperature (TransferResult.ok 127 248) =
      Except.ok ((4095 : ℚ) * (1 / 4)) :=
  ⟨by decide, by decide, by decide, by decide,
    get_temperature_success_value 4095 127 248 (by decide) (by decide)
      (by decide) (by decide)⟩

/-- Counterexample to C1 as stated: the frame `0x8000` (bytes
`[0x80, 0x00]`) has temperature bits 14..3 equal to 0 and both flag bits
clear, yet the driver returns `1024.0`, not `0 * 0.25`, because
`raw_reading >> 3` keeps the dummy bit 15. -/
theorem get_temperature_bit15_breaks_ticks_claim :
    ticksField (rawFrame 128 0) = 0 ∧ bit (rawFrame 128 0) 2 = 0 ∧
    bit (rawFrame 128 0) 1 = 0 ∧
    get_temperature (TransferResult.ok 128 0) ≠
      Except.ok ((0 : ℚ) * (1 / 4)) ∧
    get_temperature (TransferResult.ok 128 0) = Except.ok (1024 : ℚ) := by
  refine ⟨by decide, by decide, by decide, ?_, ?_⟩
  · simp [get_temperature, read_spi, rawFrame]
  · simp [get_temperature, read_spi, rawFrame]
    norm_num

/-- Claim C2 (amended): on every successful decode the returned value is
`temp * 0.25` for the `Reading.temp` field, which is bounded by 8191
(not 4095: bit 15 is kept), so the value is a non-negative multiple of
0.25 bounded by `8191 * 0.25 = 2047.75` (not 1023.75). -/
theorem get_temperature_success_range (b0 b1 : Nat) (q : ℚ) (r : Reading)
    (hq : get_temperature (TransferResult.ok b0 b1) = Except.ok q)
    (hr : (read_spi (TransferResult.ok b0 b1)).2 = Except.ok r) :
    r.temp ≤ 8191 ∧ q = (r.temp : ℚ) * (1 / 4) ∧ 0 ≤ q ∧
      q ≤ (8191 : ℚ) * (1 / 4) := by
  have hlt := rawFrame_lt b0 b1
  simp [read_spi] at hr
  subst hr
  simp [get_temperature, read_spi] at hq
  split_ifs at hq with ho hd
  simp at hq
  have ht : ((rawFrame b0 b1 / 8 : ℕ) : ℚ) ≤ 8191 := by
    exact_mod_cast (by omega : rawFrame b0 b1 / 8 ≤ 8191)
  refine ⟨by simp; omega, ?_, ?_, ?_⟩
  · rw [← hq]; norm_num
  · rw [← hq]; positivity
  · rw [← hq]; nlinarith

/-- Witness for C2: bytes `[0, 0]` decode to `0`, whose reading has
`temp = 0`. -/
theorem get_temperature_success_range_witness :
    (⟨0, false, 0⟩ : Reading).temp ≤ 8191 ∧
    (0 : ℚ) = ((⟨0, false, 0⟩ : Reading).temp : ℚ) * (1 / 4) ∧
    (0 : ℚ) ≤ 0 ∧ (0 : ℚ) ≤ (8191 : ℚ) * (1 / 4) :=
  get_temperature_success_range 0 0 0 ⟨0, false, 0⟩
    (by simp [get_temperature, read_spi, rawFrame]) (by decide)

/-- Counterexample to C2 as stated: bytes `[0xFF, 0xF8]` (bit 15 set,
flags clear) decode successfully to `2047.75 > 1023.75`, and the
`Reading.temp` field is `8191 > 4095`. -/
theorem get_temperature_range_exceeded :
    get_temperature (TransferResult.ok 255 248) =
      Except.ok ((8191 : ℚ) * (1 / 4)) ∧
    ¬((8191 : ℚ) * (1 / 4) ≤ 1023.75) ∧
    (read_spi (TransferResult.ok 255 248)).2 =
      Except.ok ⟨8191, false, 0⟩ ∧ ¬((8191 : ℕ) ≤ 4095) := by
  refine ⟨?_, by norm_num, by decide, by decide⟩
  simp [get_temperature, read_spi, rawFrame]

/-- Claim C3 (amended): the 16-bit frame is assembled big-endian (first
byte high), and `Reading.temp` is `raw_reading >> 3` — the top 13 bits
of the frame, keeping bit 15, not the 12-bit field 14..3 of the claim. -/
theorem read_spi_big_endian_and_temp (b0 b1 : Nat) (r : Reading)
    (hb0 : b0 < 256) (hb1 : b1 < 256)
    (hr : (read_spi (TransferResult.ok b0 b1)).2 = Except.ok r) :
    rawFrame b0 b1 = b0 * 256 + b1 ∧ r.temp = (b0 * 256 + b1) / 2 ^ 3 := by
  simp [read_spi] at hr
  subst hr
  constructor
  · unfold rawFrame; omega
  · show rawFrame b0 b1 / 2 ^ 3 = (b0 * 256 + b1) / 2 ^ 3
    unfold rawFrame
    omega

/-- Witness for C3: bytes `[1, 2]` assemble to `258` and the reading's
`temp` is `258 >> 3 = 32`. -/
theorem read_spi_big_endian_and_temp_witness :
    rawFrame 1 2 = 1 * 256 + 2 ∧
    (⟨32, false, 1⟩ : Reading).temp = (1 * 256 + 2) / 2 ^ 3 :=
  read_spi_big_endian_and_temp 1 2 ⟨32, false, 1⟩ (by decide) (by decide)
    (by decide)

/-- Counterexample to C3 as stated: for bytes `[0x80, 0x00]` the reading's
`temp` field is `4096`, while bits 14..3 of the frame are `0`: the code
does not discard bit 15. -/
theorem read_spi_temp_keeps_bit15 :
    (read_spi (TransferResult.ok 128 0)).2 = Except.ok ⟨4096, false, 0⟩ ∧
    ticksField (rawFrame 128 0) = 0 ∧ (4096 : ℕ) ≠ 0 :=
  ⟨by decide, by decide, by decide⟩

/-- Claim C4 (confirmed): any frame with the open-circuit bit (2) set
yields `ThermocoupleDisconnected`, whatever the device-id bit is: the
open-circuit check comes first in `get_temperature`. -/
theorem open_circuit_wins (b0 b1 : Nat) (h2 : bit (rawFrame b0 b1) 2 = 1) :
    get_temperature (TransferResult.ok b0 b1) =
      Except.error Error.ThermocoupleDisconnected := by
  simp [bit] at h2
  simp [get_temperature, read_spi, h2]

/-- Witness for C4: bytes `[0, 6]` have both the open-circuit and the
device-id bit set, and the open-circuit error wins. -/
theorem open_circuit_wins_witness :
    bit (rawFrame 0 6) 2 = 1 ∧ bit (rawFrame 0 6) 1 = 1 ∧
    get_temperature (TransferResult.ok 0 6) =
      Except.error Error.ThermocoupleDisconnected :=
  ⟨by decide, by decide, open_circuit_wins 0 6 (by decide)⟩

/-- Claim C5 (amended): a frame with the open-circuit bit clear and the
device-id bit set yields `Error.BusError` — the same variant used for a
transport failure, so it is distinguishable from
`ThermocoupleDisconnected` only; the code has no separate
protocol-mismatch error kind. -/
theorem device_id_yields_bus_error (b0 b1 : Nat)
    (h2 : bit (rawFrame b0 b1) 2 = 0) (h1 : bit (rawFrame b0 b1) 1 = 1) :
    get_temperature (TransferResult.ok b0 b1) =
      Except.error Error.BusError ∧
    Error.BusError ≠ Error.ThermocoupleDisconnected := by
  refine ⟨?_, by decide⟩
  simp [bit] at h1 h2
  simp [get_temperature, read_spi, h1, h2]

/-- Witness for C5: bytes `[0, 2]` have the device-id bit set and the
open-circuit bit clear. -/
theorem device_id_yields_bus_error_witness :
    bit (rawFrame 0 2) 2 = 0 ∧ bit (rawFrame 0 2) 1 = 1 ∧
    (get_temperature (TransferResult.ok 0 2) =
        Except.error Error.BusError ∧
      Error.BusError ≠ Error.ThermocoupleDisconnected) :=
  ⟨by decide, by decide, device_id_yields_bus_error 0 2 (by decide)
    (by decide)⟩

/-- Counterexample to C5 as stated: on bytes `[0xFF, 0xFA]` (device-id
bit set, open-circuit clear) the driver returns exactly the same error
value as on a failed transfer, so the device-id error is NOT
distinguishable from the bus-transfer-failure error. -/
theorem device_id_error_equals_transfer_error :
    get_temperature (TransferResult.ok 255 250) =
      Except.error Error.BusError ∧
    get_temperature (TransferResult.ok 255 250) =
      get_temperature TransferResult.err := by
  constructor
  · simp [get_temperature, read_spi, rawFrame]
  · simp [get_temperature, read_spi, rawFrame]

/-- Claim C6 (confirmed): a failed bus exchange makes `get_temperature`
return the bus-failure error (`Error::BusError` in the code, the spec's
`BusTransferFailure`), never a temperature value. -/
theorem transfer_failure_yields_bus_error :
    get_temperature TransferResult.err = Except.error Error.BusError := rfl

/-- Claim C7 (amended): on a successful transfer the select line is
driven exactly twice (active then inactive); on a failed transfer the
`?` in `read_spi` returns before `cs.set_high()`, so the line is driven
only once and is NOT restored to inactive before the call returns. -/
theorem cs_trace_characterization :
    (∀ b0 b1, csTrace (TransferResult.ok b0 b1) =
      [CSEvent.setLow, CSEvent.setHigh]) ∧
    csTrace TransferResult.err = [CSEvent.setLow] :=
  ⟨fun _ _ => rfl, rfl⟩

/-- Counterexample to C7 as stated: on a failed transfer the chip-select
trace is `[setLow]` alone — `setHigh` never happens, so the line is not
driven back to its inactive state. -/
theorem cs_trace_not_restored_on_failure :
    csTrace TransferResult.err = [CSEvent.setLow] ∧
    CSEvent.setHigh ∉ csTrace TransferResult.err :=
  ⟨rfl, by decide⟩

/-- Claim C8 (amended): the four concrete byte pairs decode to
`1023.75`, `0.0`, `ThermocoupleDisconnected`, and — for
`[0b00000000, 0b00000010]` — `Error.BusError`, the code's single error
variant for both a device-id mismatch and a transport failure (there is
no distinct `ProtocolMismatch` value). -/
theorem concrete_cases :
    get_temperature (TransferResult.ok 127 248) =
      Except.ok (1023.75 : ℚ) ∧
    get_temperature (TransferResult.ok 0 0) = Except.ok (0.0 : ℚ) ∧
    get_temperature (TransferResult.ok 0 4) =
      Except.error Error.ThermocoupleDisconnected ∧
    get_temperature (TransferResult.ok 0 2) =
      Except.error Error.BusError := by
  refine ⟨?_, ?_, ?_, ?_⟩ <;>
    simp [get_temperature, read_spi, rawFrame] <;> norm_num

/-- Counterexample to C8 as stated: the fourth byte pair
`[0b00000000, 0b00000010]` yields the very same error value as a failed
transfer, so it does not yield a distinct protocol-mismatch error kind. -/
theorem concrete_device_id_case_not_distinct :
    get_temperature (TransferResult.ok 0 2) =
      Except.error Error.BusError ∧
    get_temperature (TransferResult.ok 0 2) =
      get_temperature TransferResult.err := by
  constructor <;> simp [get_temperature, read_spi, rawFrame]

/-- Claim C9 (confirmed): the result of a `get_temperature` call is a
function of the transfer outcome alone: for any stateful transport, two
calls from transport states that produce the same outcome produce the
same result — the driver carries no hidden state across calls. -/
theorem result_determined_by_transfer (σ : Type) (T : Transport σ)
    (s t : σ) (h : (T.step s).1 = (T.step t).1) :
    (runGetTemperature T s).1 = (runGetTemperature T t).1 := by
  simp [runGetTemperature, h]

/-- Witness for C9: the counting transport fails every exchange, so the
calls from states 0 and 5 give identical results even though the
transport state differs. -/
theorem result_determined_by_transfer_witness :
    (runGetTemperature tickTransport 0).1 =
      (runGetTemperature tickTransport 5).1 :=
  result_determined_by_transfer Nat tickTransport 0 5 rfl

/-- Claim C10 (confirmed): a call succeeds iff the transfer succeeds and
bits 2 and 1 of the assembled frame are both zero; in particular the
success/error outcome ignores bit 0 and the temperature bits. -/
theorem success_iff_flags_clear :
    (∀ b0 b1, isOk (get_temperature (TransferResult.ok b0 b1)) = true ↔
      (bit (rawFrame b0 b1) 2 = 0 ∧ bit (rawFrame b0 b1) 1 = 0)) ∧
    isOk (get_temperature TransferResult.err) = false := by
  constructor
  · intro b0 b1
    simp [isOk, get_temperature, read_spi, bit]
    split_ifs with ho hd
    · simp; omega
    · simp at hd ⊢; omega
    · simp at hd ⊢; omega
  · rfl

end Max6675
